import Mathlib

/-!
Verification of the RBAC authorization core of the mahaus repository.

The embedding models, directly from the source:
- the RBAC relations (`roles`, `permissions`, `role_permissions`, `user_roles`
  from `shared/database/schema/rbac.ts`) as lists of rows;
- the two SQL queries issued by the middleware in `shared/api-helpers`
  (`adminProcedure`'s role-name join and `createPermissionProcedure`'s
  four-way permission chain join) as list comprehensions;
- the tRPC middleware chain `protectedProcedure` → `adminProcedure` →
  `createPermissionProcedure(p)` as composed guard functions over an
  optional session and a fallible store, instrumented with query counters
  so that claims about which queries are issued can be stated.
-/

namespace Mahaus

/-- Principal identity carried by a session (shared/auth Session.user:
{id, email, name}). -/
structure Principal where
  id : String
  email : String
  name : String
deriving DecidableEq, Repr

/-- Session as seen by the middleware; only `user` is consulted
(`ctx.session.user.id`). -/
structure Session where
  user : Principal
deriving DecidableEq, Repr

/-- Row of the `roles` table. Timestamps are omitted: no query in the
authorization core reads them. -/
structure RoleRow where
  id : String
  name : String
  description : Option String
deriving DecidableEq, Repr

/-- Row of the `permissions` table (timestamps omitted, unread). -/
structure PermissionRow where
  id : String
  name : String
  resource : String
  action : String
  description : Option String
deriving DecidableEq, Repr

/-- Row of the `role_permissions` junction table (timestamps omitted). -/
structure RolePermissionRow where
  roleId : String
  permissionId : String
deriving DecidableEq, Repr

/-- Row of the `user_roles` junction table (timestamps omitted). -/
structure UserRoleRow where
  userId : String
  roleId : String
deriving DecidableEq, Repr

/-- The relational store: the four RBAC relations, each as a list of rows. -/
structure Store where
  roles : List RoleRow
  permissions : List PermissionRow
  rolePermissions : List RolePermissionRow
  userRoles : List UserRoleRow
deriving DecidableEq, Repr

/-- ADMIN_ROLES from shared/database/schema: roles granted access to /admin. -/
def ADMIN_ROLES : List String := ["super_admin", "editor", "content_manager"]

/-- The role query of `adminProcedure` and `cms.checkAccess`:
select roles.name from user_roles inner join roles on roles.id =
user_roles.role_id where user_roles.user_id = uid. -/
def userRoleNamesQuery (db : Store) (uid : String) : List String :=
  db.userRoles.flatMap (fun ur =>
    db.roles.filterMap (fun r =>
      if r.id == ur.roleId && ur.userId == uid then some r.name else none))

/-- The permission query of `createPermissionProcedure`:
select user_roles.user_id from user_roles
inner join roles on roles.id = user_roles.role_id
inner join role_permissions on role_permissions.role_id = roles.id
inner join permissions on permissions.id = role_permissions.permission_id
where user_roles.user_id = uid and permissions.name = requiredPermission
limit 1. -/
def permissionChainQuery (db : Store) (uid requiredPermission : String) :
    List String :=
  (db.userRoles.flatMap (fun ur =>
    db.roles.flatMap (fun r =>
      db.rolePermissions.flatMap (fun rp =>
        db.permissions.filterMap (fun p =>
          if r.id == ur.roleId && rp.roleId == r.id &&
              p.id == rp.permissionId && ur.userId == uid &&
              p.name == requiredPermission
          then some ur.userId else none))))).take 1

/-- Store interface consumed by the guard middleware: the two queries it
issues, each allowed to fail with a transport/store error of type ε
(a drizzle query that rejects). A pure `Store` induces an infallible
instance via `Store.toDB`. -/
structure DB (ε : Type) where
  userRoleNames : String → Except ε (List String)
  permissionChain : String → String → Except ε (List String)

/-- A pure relational store queried without failure. -/
def Store.toDB (db : Store) : DB Empty :=
  { userRoleNames := fun uid => .ok (userRoleNamesQuery db uid)
    permissionChain := fun uid p => .ok (permissionChainQuery db uid p) }

deriving instance DecidableEq for Except

/-- Errors raised at the guard boundary: TRPCError UNAUTHORIZED, TRPCError
FORBIDDEN with its message, or a store failure propagating uncaught. -/
inductive GuardError (ε : Type) where
  | unauthorized : GuardError ε
  | forbidden : String → GuardError ε
  | internal : ε → GuardError ε
deriving DecidableEq, Repr

/-- Outcome of running a guarded call: the result together with how many
times each of the two store queries was issued. -/
structure GuardOutcome (ε α : Type) where
  result : Except (GuardError ε) α
  roleQueryCount : Nat
  permQueryCount : Nat
deriving DecidableEq, Repr

/-- A result is an allow exactly when the wrapped action ran and returned. -/
def isAllowed : Except (GuardError ε) α → Bool
  | .ok _ => true
  | .error _ => false

/-- The FORBIDDEN message of `createPermissionProcedure`:
Permission (quoted name) required. `Char.ofNat 39` is the ASCII quote
character surrounding the permission name in the source template string. -/
def permRequiredMsg (requiredPermission : String) : String :=
  "Permission " ++ String.singleton (Char.ofNat 39) ++ requiredPermission ++
    String.singleton (Char.ofNat 39) ++ " required"

/-- Middleware of `protectedProcedure`: resolve the session; if absent throw
UNAUTHORIZED, otherwise continue with the session in context. No store
query is issued by this layer. -/
def protectedUse (sess : Option Session)
    (next : Session → GuardOutcome ε α) : GuardOutcome ε α :=
  match sess with
  | none => ⟨.error .unauthorized, 0, 0⟩
  | some s => next s

/-- Middleware of `adminProcedure`: query the principal's role names; deny
with FORBIDDEN "Admin access required" unless some role name is in
ADMIN_ROLES; otherwise continue with `userRoles` in context. -/
def adminUse (db : DB ε) (session : Session)
    (next : List String → GuardOutcome ε α) : GuardOutcome ε α :=
  match db.userRoleNames session.user.id with
  | .error e => ⟨.error (.internal e), 1, 0⟩
  | .ok userRoleNames =>
    let isAdmin := userRoleNames.any (fun n => ADMIN_ROLES.contains n)
    if !isAdmin then
      ⟨.error (.forbidden "Admin access required"), 1, 0⟩
    else
      let o := next userRoleNames
      ⟨o.result, o.roleQueryCount + 1, o.permQueryCount⟩

/-- Middleware appended by `createPermissionProcedure requiredPermission`:
super_admin bypasses; otherwise issue the permission-chain query and deny
with FORBIDDEN naming the permission when it returns no row. -/
def permissionUse (db : DB ε) (session : Session)
    (requiredPermission : String) (userRoles : List String)
    (next : Unit → GuardOutcome ε α) : GuardOutcome ε α :=
  if userRoles.contains "super_admin" then next ()
  else
    match db.permissionChain session.user.id requiredPermission with
    | .error e => ⟨.error (.internal e), 0, 1⟩
    | .ok hasPermission =>
      if hasPermission.length == 0 then
        ⟨.error (.forbidden (permRequiredMsg requiredPermission)), 0, 1⟩
      else
        let o := next ()
        ⟨o.result, o.roleQueryCount, o.permQueryCount + 1⟩

/-- Run of a query/mutation built on `protectedProcedure`. -/
def protectedProcedureRun (sess : Option Session)
    (action : Session → α) : GuardOutcome ε α :=
  protectedUse sess (fun s => ⟨.ok (action s), 0, 0⟩)

/-- Run of a query/mutation built on `adminProcedure` =
protectedProcedure.use(admin middleware). -/
def adminProcedureRun (db : DB ε) (sess : Option Session)
    (action : Session → List String → α) : GuardOutcome ε α :=
  protectedUse sess (fun s =>
    adminUse db s (fun names => ⟨.ok (action s names), 0, 0⟩))

/-- Run of a query/mutation built on
`createPermissionProcedure requiredPermission` =
adminProcedure.use(permission middleware). -/
def createPermissionProcedureRun (db : DB ε) (sess : Option Session)
    (requiredPermission : String)
    (action : Session → List String → α) : GuardOutcome ε α :=
  protectedUse sess (fun s =>
    adminUse db s (fun names =>
      permissionUse db s requiredPermission names
        (fun _ => ⟨.ok (action s names), 0, 0⟩)))

/-- Return shape of `cms.checkAccess`. -/
structure CheckAccessResult where
  isAdmin : Bool
  roles : List String
deriving DecidableEq, Repr

/-- Body of `cms.checkAccess` (part of the cms router): the same role join
as adminProcedure, returning {isAdmin, roles} instead of gating. -/
def checkAccessQuery (db : Store) (uid : String) : CheckAccessResult :=
  let userRoleNames := userRoleNamesQuery db uid
  ⟨userRoleNames.any (fun n => ADMIN_ROLES.contains n), userRoleNames⟩

/-- Deployment of `cms.checkAccess`: a `protectedProcedure` query. The role
join counts as one role query. -/
def checkAccessRun (db : Store) (sess : Option Session) :
    GuardOutcome Empty CheckAccessResult :=
  protectedUse sess (fun s => ⟨.ok (checkAccessQuery db s.user.id), 1, 0⟩)

/-- Projection returned by `cms.listRoles`: {id, name, description}. -/
structure RoleListing where
  id : String
  name : String
  description : Option String
deriving DecidableEq, Repr

/-- Body of `cms.listRoles`: select id, name, description from roles. -/
def listRolesQuery (db : Store) : List RoleListing :=
  db.roles.map (fun r => ⟨r.id, r.name, r.description⟩)

/-- Deployment of `cms.listRoles`: a `protectedProcedure` query (not an
adminProcedure one). -/
def listRolesRun (db : Store) (sess : Option Session) :
    GuardOutcome Empty (List RoleListing) :=
  protectedUse sess (fun _ => ⟨.ok (listRolesQuery db), 0, 0⟩)

/-- Removal of one UserRole assignment (userId, roleId) from the store. -/
def Store.removeUserRole (db : Store) (uid rid : String) : Store :=
  { db with userRoles :=
      db.userRoles.filter (fun ur => !(ur.userId == uid && ur.roleId == rid)) }

/-- Session fixture matching the repository's test user U0001. -/
def alice : Session := ⟨⟨"U0001", "johndoe@example.com", "John Doe"⟩⟩

/-- Membership in ADMIN_ROLES, in boolean `any`/`contains` form, is
membership in the literal admin role set. -/
theorem adminAny_iff (names : List String) :
    names.any (fun n => ADMIN_ROLES.contains n) = true ↔
      ∃ n, n ∈ names ∧
        (n = "super_admin" ∨ n = "editor" ∨ n = "content_manager") := by
  simp [ADMIN_ROLES, List.any_eq_true]

/-- Characterization of an adminProcedure run over a pure store and a
present session: one role query, then allow or the admin denial. -/
theorem adminRun_cases {α : Type} (db : Store) (s : Session)
    (action : Session → List String → α) :
    adminProcedureRun (Store.toDB db) (some s) action =
      if (userRoleNamesQuery db s.user.id).any
          (fun n => ADMIN_ROLES.contains n) = true then
        ⟨.ok (action s (userRoleNamesQuery db s.user.id)), 1, 0⟩
      else ⟨.error (.forbidden "Admin access required"), 1, 0⟩ := by
  by_cases hA : (userRoleNamesQuery db s.user.id).any
      (fun n => ADMIN_ROLES.contains n) = true
  · have hM : ∃ x ∈ userRoleNamesQuery db s.user.id, x ∈ ADMIN_ROLES := by
      simpa using hA
    have hF : ¬ ∀ x ∈ userRoleNamesQuery db s.user.id, x ∉ ADMIN_ROLES := by
      push_neg
      exact hM
    simp [adminProcedureRun, protectedUse, adminUse, Store.toDB, hA, hM, hF]
  · have hM : ¬ ∃ x ∈ userRoleNamesQuery db s.user.id, x ∈ ADMIN_ROLES := by
      simpa using hA
    have hF : ∀ x ∈ userRoleNamesQuery db s.user.id, x ∉ ADMIN_ROLES := by
      push_neg at hM
      exact hM
    simp [adminProcedureRun, protectedUse, adminUse, Store.toDB,
      eq_false_of_ne_true hA, hM, hF]

/-- Characterization of a createPermissionProcedure run over a pure store
and a present session: admin gate, then super_admin bypass, then the
permission-chain query. -/
theorem permissionRun_cases {α : Type} (db : Store) (s : Session)
    (requiredPermission : String) (action : Session → List String → α) :
    createPermissionProcedureRun (Store.toDB db) (some s) requiredPermission
        action =
      if (userRoleNamesQuery db s.user.id).any
          (fun n => ADMIN_ROLES.contains n) = true then
        (if (userRoleNamesQuery db s.user.id).contains "super_admin" = true
          then ⟨.ok (action s (userRoleNamesQuery db s.user.id)), 1, 0⟩
          else if permissionChainQuery db s.user.id requiredPermission = []
            then ⟨.error (.forbidden (permRequiredMsg requiredPermission)), 1, 1⟩
            else ⟨.ok (action s (userRoleNamesQuery db s.user.id)), 1, 1⟩)
      else ⟨.error (.forbidden "Admin access required"), 1, 0⟩ := by
  by_cases hA : (userRoleNamesQuery db s.user.id).any
      (fun n => ADMIN_ROLES.contains n) = true
  · have hM : ∃ x ∈ userRoleNamesQuery db s.user.id, x ∈ ADMIN_ROLES := by
      simpa using hA
    have hF : ¬ ∀ x ∈ userRoleNamesQuery db s.user.id, x ∉ ADMIN_ROLES := by
      push_neg
      exact hM
    by_cases hS : (userRoleNamesQuery db s.user.id).contains "super_admin"
        = true
    · have hSm : "super_admin" ∈ userRoleNamesQuery db s.user.id := by
        simpa using hS
      simp [createPermissionProcedureRun, protectedUse, adminUse,
        permissionUse, Store.toDB, hA, hS, hM, hF, hSm]
    · have hSm : "super_admin" ∉ userRoleNamesQuery db s.user.id := by
        simpa using hS
      by_cases hC : permissionChainQuery db s.user.id requiredPermission = []
      · simp [createPermissionProcedureRun, protectedUse, adminUse,
          permissionUse, Store.toDB, hA, eq_false_of_ne_true hS, hM, hF,
          hSm, hC]
      · have hlen : (permissionChainQuery db s.user.id
            requiredPermission).length ≠ 0 :=
          fun hz => hC (List.length_eq_zero.mp hz)
        simp [createPermissionProcedureRun, protectedUse, adminUse,
          permissionUse, Store.toDB, hA, eq_false_of_ne_true hS, hM, hF,
          hSm, hC, hlen]
  · have hM : ¬ ∃ x ∈ userRoleNamesQuery db s.user.id, x ∈ ADMIN_ROLES := by
      simpa using hA
    have hF : ∀ x ∈ userRoleNamesQuery db s.user.id, x ∉ ADMIN_ROLES := by
      push_neg at hM
      exact hM
    simp [createPermissionProcedureRun, protectedUse, adminUse,
      permissionUse, Store.toDB, eq_false_of_ne_true hA, hM, hF]

/-- Store fixture: a lone super_admin role assigned to U0001, with no
RolePermission rows at all. -/
def storeSuper : Store :=
  ⟨[⟨"role_super", "super_admin", none⟩], [], [], [⟨"U0001", "role_super"⟩]⟩

/-- Store fixture: a customer role granted cms.pages.create through a
RolePermission row, and assigned to U0001. -/
def storeCustomerGranted : Store :=
  ⟨[⟨"role_customer", "customer", none⟩],
   [⟨"perm_pc", "cms.pages.create", "cms.pages", "create", none⟩],
   [⟨"role_customer", "perm_pc"⟩],
   [⟨"U0001", "role_customer"⟩]⟩

/-- Store fixture: two non-admin roles, each granting one of two disjoint
permissions, both assigned to U0001. -/
def storeTwoNonAdmin : Store :=
  ⟨[⟨"role_r1", "reviewer", none⟩, ⟨"role_r2", "translator", none⟩],
   [⟨"perm_a", "cms.articles.create", "cms.articles", "create", none⟩,
    ⟨"perm_b", "media.upload", "media", "upload", none⟩],
   [⟨"role_r1", "perm_a"⟩, ⟨"role_r2", "perm_b"⟩],
   [⟨"U0001", "role_r1"⟩, ⟨"U0001", "role_r2"⟩]⟩

/-- Store fixture: editor and content_manager roles granting disjoint
permissions, both assigned to U0001. -/
def storeTwoAdminRoles : Store :=
  ⟨[⟨"role_editor", "editor", none⟩, ⟨"role_cm", "content_manager", none⟩],
   [⟨"perm_a", "cms.articles.create", "cms.articles", "create", none⟩,
    ⟨"perm_b", "media.upload", "media", "upload", none⟩],
   [⟨"role_editor", "perm_a"⟩, ⟨"role_cm", "perm_b"⟩],
   [⟨"U0001", "role_editor"⟩, ⟨"U0001", "role_cm"⟩]⟩

/-- Store fixture: an editor role granting cms.pages.create, assigned to
U0001 by the only UserRole row deriving that permission. -/
def storeEditorGrant : Store :=
  ⟨[⟨"role_editor", "editor", none⟩],
   [⟨"perm_pc", "cms.pages.create", "cms.pages", "create", none⟩],
   [⟨"role_editor", "perm_pc"⟩],
   [⟨"U0001", "role_editor"⟩]⟩

/-- Store fixture: an editor role assigned only to another user, U0002. -/
def storeForeignAssignment : Store :=
  ⟨[⟨"role_editor", "editor", none⟩], [], [], [⟨"U0002", "role_editor"⟩]⟩

/-- Store interface that fails every query, to exercise the Internal path. -/
def failingDB : DB Unit :=
  { userRoleNames := fun _ => .error ()
    permissionChain := fun _ _ => .error () }

/-- C4: with no session, every guarded run terminates with UNAUTHORIZED,
issues no role query and no permission query, and never runs the wrapped
action (the outcome is a constant independent of the action and of the
store). -/
theorem unauthenticated_short_circuit {ε α : Type} (db : DB ε)
    (requiredPermission : String) (action : Session → List String → α)
    (actionP : Session → α) :
    createPermissionProcedureRun db none requiredPermission action =
        ⟨.error .unauthorized, 0, 0⟩ ∧
    adminProcedureRun db none action = ⟨.error .unauthorized, 0, 0⟩ ∧
    protectedProcedureRun (ε := ε) none actionP =
        ⟨.error .unauthorized, 0, 0⟩ :=
  ⟨rfl, rfl, rfl⟩

/-- C6: listRoles is gated only by authentication — any authenticated
principal receives every row of the roles relation projected to
{id, name, description}, for every store state; an unauthenticated call
is rejected. -/
theorem listRoles_authenticated_only (db : Store) (s : Session) :
    (listRolesRun db (some s)).result =
        .ok (db.roles.map (fun r => ⟨r.id, r.name, r.description⟩)) ∧
    (listRolesRun db none).result = .error .unauthorized :=
  ⟨rfl, rfl⟩

/-- C10: for an authenticated principal with zero UserRole rows in the
store, checkAccess returns exactly {isAdmin: false, roles: []}. -/
theorem checkAccess_zero_roles (db : Store) (s : Session)
    (h : ∀ ur ∈ db.userRoles, ur.userId ≠ s.user.id) :
    (checkAccessRun db (some s)).result = .ok ⟨false, []⟩ := by
  have hnames : userRoleNamesQuery db s.user.id = [] := by
    unfold userRoleNamesQuery
    rw [List.flatMap_eq_nil_iff]
    intro ur hur
    rw [List.filterMap_eq_nil_iff]
    intro r _
    have hne : (ur.userId == s.user.id) = false :=
      beq_eq_false_iff_ne.mpr (h ur hur)
    simp [hne]
  show (checkAccessRun db (some s)).result = .ok ⟨false, []⟩
  simp [checkAccessRun, protectedUse, checkAccessQuery, hnames]

/-- Closed instance of checkAccess_zero_roles: U0001 holds no UserRole row
in a store whose only assignment belongs to U0002. -/
theorem checkAccess_zero_roles_witness :
    (checkAccessRun storeForeignAssignment (some alice)).result =
      .ok ⟨false, []⟩ :=
  checkAccess_zero_roles storeForeignAssignment alice (by decide)

/-- C3: adminProcedure allows exactly when the principal's role names
intersect {super_admin, editor, content_manager}; on a non-intersecting
role set it denies with FORBIDDEN "Admin access required". -/
theorem adminProcedure_allows_iff_admin_role {α : Type} (db : Store)
    (s : Session) (action : Session → List String → α) :
    (isAllowed (adminProcedureRun (Store.toDB db) (some s) action).result
        = true ↔
      ∃ n, n ∈ userRoleNamesQuery db s.user.id ∧
        (n = "super_admin" ∨ n = "editor" ∨ n = "content_manager")) ∧
    ((¬ ∃ n, n ∈ userRoleNamesQuery db s.user.id ∧
        (n = "super_admin" ∨ n = "editor" ∨ n = "content_manager")) →
      (adminProcedureRun (Store.toDB db) (some s) action).result =
        .error (.forbidden "Admin access required")) := by
  rw [adminRun_cases, ← adminAny_iff]
  by_cases hA : (userRoleNamesQuery db s.user.id).any
      (fun n => ADMIN_ROLES.contains n) = true
  · have hM : ∃ x ∈ userRoleNamesQuery db s.user.id, x ∈ ADMIN_ROLES := by
      simpa using hA
    have hF : ¬ ∀ x ∈ userRoleNamesQuery db s.user.id, x ∉ ADMIN_ROLES := by
      push_neg
      exact hM
    simp [hA, hM, hF, isAllowed]
  · have hM : ¬ ∃ x ∈ userRoleNamesQuery db s.user.id, x ∈ ADMIN_ROLES := by
      simpa using hA
    have hF : ∀ x ∈ userRoleNamesQuery db s.user.id, x ∉ ADMIN_ROLES := by
      have hM2 := hM
      push_neg at hM2
      exact hM2
    simp [hA, hM, hF, isAllowed]

/-- Closed instance of adminProcedure_allows_iff_admin_role: a principal
holding only the customer role is denied with the admin message. -/
theorem adminProcedure_allows_iff_admin_role_witness :
    (adminProcedureRun (Store.toDB storeCustomerGranted) (some alice)
        (fun _ _ => (0 : Nat))).result =
      .error (.forbidden "Admin access required") :=
  (adminProcedure_allows_iff_admin_role storeCustomerGranted alice
    (fun _ _ => (0 : Nat))).2 (by decide)

/-- Boolean list containment on strings coincides with membership. -/
theorem containsString_iff (l : List String) (a : String) :
    l.contains a = true ↔ a ∈ l := by
  simp

/-- C1 counterexample: in a store where the customer role (not an admin
role) is granted cms.pages.create and assigned to U0001, a permission
chain exists and super_admin is absent, yet the procedure denies with the
admin message — the decision is not the claimed admin-independent iff. -/
theorem permissionProcedure_admin_independence_counterexample :
    permissionChainQuery storeCustomerGranted "U0001" "cms.pages.create"
        ≠ [] ∧
    (userRoleNamesQuery storeCustomerGranted "U0001").contains "super_admin"
        = false ∧
    (createPermissionProcedureRun (Store.toDB storeCustomerGranted)
        (some alice) "cms.pages.create" (fun _ _ => ())).result =
      .error (.forbidden "Admin access required") := by
  decide

/-- C1 (amended): the permission-gated procedure allows exactly when the
admin gate passes AND (the role set contains super_admin OR a
UserRole-Role-RolePermission-Permission chain matches the permission
name); the decision is layered on the admin gate, not independent of it. -/
theorem permissionProcedure_allows_iff_admin_and_grant {α : Type}
    (db : Store) (s : Session) (requiredPermission : String)
    (action : Session → List String → α) :
    isAllowed (createPermissionProcedureRun (Store.toDB db) (some s)
        requiredPermission action).result = true ↔
      ((∃ n, n ∈ userRoleNamesQuery db s.user.id ∧
          (n = "super_admin" ∨ n = "editor" ∨ n = "content_manager")) ∧
        ("super_admin" ∈ userRoleNamesQuery db s.user.id ∨
          permissionChainQuery db s.user.id requiredPermission ≠ [])) := by
  rw [permissionRun_cases]
  by_cases hA : (userRoleNamesQuery db s.user.id).any
      (fun n => ADMIN_ROLES.contains n) = true
  · rw [if_pos hA]
    by_cases hS : (userRoleNamesQuery db s.user.id).contains "super_admin"
        = true
    · rw [if_pos hS]
      constructor
      · intro _
        exact ⟨(adminAny_iff _).mp hA,
          Or.inl ((containsString_iff _ _).mp hS)⟩
      · intro _
        rfl
    · rw [if_neg hS]
      by_cases hC : permissionChainQuery db s.user.id requiredPermission = []
      · rw [if_pos hC]
        constructor
        · intro hfalse
          exact absurd hfalse (by simp [isAllowed])
        · rintro ⟨_, hgrant⟩
          rcases hgrant with hmem | hne
          · exact absurd ((containsString_iff _ _).mpr hmem) hS
          · exact absurd hC hne
      · rw [if_neg hC]
        constructor
        · intro _
          exact ⟨(adminAny_iff _).mp hA, Or.inr hC⟩
        · intro _
          rfl
  · rw [if_neg hA]
    constructor
    · intro hfalse
      exact absurd hfalse (by simp [isAllowed])
    · rintro ⟨hex, _⟩
      exact absurd ((adminAny_iff _).mpr hex) hA

/-- C2: a principal whose resolved role set contains super_admin is allowed
any permission name, and the permission-chain query is never issued —
whatever the RolePermission rows are. -/
theorem superAdmin_bypass_no_permission_query {α : Type} (db : Store)
    (s : Session) (requiredPermission : String)
    (action : Session → List String → α)
    (h : "super_admin" ∈ userRoleNamesQuery db s.user.id) :
    (createPermissionProcedureRun (Store.toDB db) (some s) requiredPermission
        action).result = .ok (action s (userRoleNamesQuery db s.user.id)) ∧
    (createPermissionProcedureRun (Store.toDB db) (some s) requiredPermission
        action).permQueryCount = 0 := by
  have hS : (userRoleNamesQuery db s.user.id).contains "super_admin" = true :=
    (containsString_iff _ _).mpr h
  have hA : (userRoleNamesQuery db s.user.id).any
      (fun n => ADMIN_ROLES.contains n) = true :=
    (adminAny_iff _).mpr ⟨"super_admin", h, Or.inl rfl⟩
  rw [permissionRun_cases, if_pos hA, if_pos hS]
  exact ⟨rfl, rfl⟩

/-- Closed instance of superAdmin_bypass_no_permission_query: U0001 holds
super_admin in a store with no RolePermission rows at all, is allowed,
and no permission query is issued. -/
theorem superAdmin_bypass_no_permission_query_witness :
    (createPermissionProcedureRun (Store.toDB storeSuper) (some alice)
        "cms.pages.create" (fun _ _ => (0 : Nat))).result = .ok 0 ∧
    (createPermissionProcedureRun (Store.toDB storeSuper) (some alice)
        "cms.pages.create" (fun _ _ => (0 : Nat))).permQueryCount = 0 := by
  have h := superAdmin_bypass_no_permission_query storeSuper alice
    "cms.pages.create" (fun _ _ => (0 : Nat)) (by decide)
  exact ⟨h.1, h.2⟩

/-- C7: if the permission-gated procedure allows, the principal's role set
meets {super_admin, editor, content_manager}; a principal failing the
admin gate is denied with the admin message regardless of RolePermission
grants. -/
theorem permission_allow_implies_admin_gate {α : Type} (db : Store)
    (s : Session) (requiredPermission : String)
    (action : Session → List String → α) :
    (isAllowed (createPermissionProcedureRun (Store.toDB db) (some s)
        requiredPermission action).result = true →
      ∃ n, n ∈ userRoleNamesQuery db s.user.id ∧
        (n = "super_admin" ∨ n = "editor" ∨ n = "content_manager")) ∧
    ((userRoleNamesQuery db s.user.id).any
        (fun n => ADMIN_ROLES.contains n) = false →
      (createPermissionProcedureRun (Store.toDB db) (some s)
          requiredPermission action).result =
        .error (.forbidden "Admin access required")) := by
  rw [permissionRun_cases]
  by_cases hA : (userRoleNamesQuery db s.user.id).any
      (fun n => ADMIN_ROLES.contains n) = true
  · constructor
    · intro _
      exact (adminAny_iff _).mp hA
    · intro hfalse
      rw [hA] at hfalse
      cases hfalse
  · constructor
    · rw [if_neg hA]
      intro hfalse
      exact absurd hfalse (by simp [isAllowed])
    · intro _
      rw [if_neg hA]

/-- Closed instance of permission_allow_implies_admin_gate: U0001 holds
only customer, which is granted cms.pages.create, and is still denied
with the admin message. -/
theorem permission_allow_implies_admin_gate_witness :
    (createPermissionProcedureRun (Store.toDB storeCustomerGranted)
        (some alice) "cms.pages.create" (fun _ _ => (0 : Nat))).result =
      .error (.forbidden "Admin access required") :=
  (permission_allow_implies_admin_gate storeCustomerGranted alice
    "cms.pages.create" (fun _ _ => (0 : Nat))).2 (by decide)

/-- C5 counterexample: U0001 holds two non-admin roles granting the two
disjoint permissions; both permission chains exist, yet both calls are
denied by the admin gate — so the claim does not hold for every principal
with two such roles. -/
theorem two_disjoint_roles_nonadmin_denied :
    permissionChainQuery storeTwoNonAdmin "U0001" "cms.articles.create"
        ≠ [] ∧
    permissionChainQuery storeTwoNonAdmin "U0001" "media.upload" ≠ [] ∧
    (createPermissionProcedureRun (Store.toDB storeTwoNonAdmin) (some alice)
        "cms.articles.create" (fun _ _ => ())).result =
      .error (.forbidden "Admin access required") ∧
    (createPermissionProcedureRun (Store.toDB storeTwoNonAdmin) (some alice)
        "media.upload" (fun _ _ => ())).result =
      .error (.forbidden "Admin access required") := by
  decide

/-- C5 (amended): for a principal who passes the admin gate and whose roles
derive chains for two permissions A and B (each possibly through a
different role), the procedure allows both — effective permissions are the
union over all held roles. -/
theorem admin_principal_union_permissions {α : Type} (db : Store)
    (s : Session) (permA permB : String)
    (action : Session → List String → α)
    (hAdmin : (userRoleNamesQuery db s.user.id).any
        (fun n => ADMIN_ROLES.contains n) = true)
    (hA : permissionChainQuery db s.user.id permA ≠ [])
    (hB : permissionChainQuery db s.user.id permB ≠ []) :
    isAllowed (createPermissionProcedureRun (Store.toDB db) (some s) permA
        action).result = true ∧
    isAllowed (createPermissionProcedureRun (Store.toDB db) (some s) permB
        action).result = true := by
  constructor
  · rw [permissionRun_cases, if_pos hAdmin]
    by_cases hS : (userRoleNamesQuery db s.user.id).contains "super_admin"
        = true
    · rw [if_pos hS]
      rfl
    · rw [if_neg hS, if_neg hA]
      rfl
  · rw [permissionRun_cases, if_pos hAdmin]
    by_cases hS : (userRoleNamesQuery db s.user.id).contains "super_admin"
        = true
    · rw [if_pos hS]
      rfl
    · rw [if_neg hS, if_neg hB]
      rfl

/-- Closed instance of admin_principal_union_permissions: editor grants
cms.articles.create, content_manager grants media.upload, U0001 holds
both roles and is allowed both permissions. -/
theorem admin_principal_union_permissions_witness :
    isAllowed (createPermissionProcedureRun (Store.toDB storeTwoAdminRoles)
        (some alice) "cms.articles.create" (fun _ _ => (0 : Nat))).result
      = true ∧
    isAllowed (createPermissionProcedureRun (Store.toDB storeTwoAdminRoles)
        (some alice) "media.upload" (fun _ _ => (0 : Nat))).result = true :=
  admin_principal_union_permissions storeTwoAdminRoles alice
    "cms.articles.create" "media.upload" (fun _ _ => (0 : Nat))
    (by decide) (by decide) (by decide)

/-- C8: every check re-reads store state — when a run for permission A was
allowed and then the UserRole row (principal, rid) is removed, leaving no
chain deriving A and no super_admin role, the next run for A denies. -/
theorem revocation_immediate {α : Type} (db : Store) (s : Session)
    (rid : String) (permA : String) (action : Session → List String → α)
    (_hWas : isAllowed (createPermissionProcedureRun (Store.toDB db) (some s)
        permA action).result = true)
    (hNoSuper : "super_admin" ∉
        userRoleNamesQuery (db.removeUserRole s.user.id rid) s.user.id)
    (hGone : permissionChainQuery (db.removeUserRole s.user.id rid)
        s.user.id permA = []) :
    isAllowed (createPermissionProcedureRun
        (Store.toDB (db.removeUserRole s.user.id rid)) (some s) permA
        action).result = false := by
  rw [permissionRun_cases]
  by_cases hAd : (userRoleNamesQuery (db.removeUserRole s.user.id rid)
      s.user.id).any (fun n => ADMIN_ROLES.contains n) = true
  · rw [if_pos hAd]
    have hS : ¬ (userRoleNamesQuery (db.removeUserRole s.user.id rid)
        s.user.id).contains "super_admin" = true :=
      fun hc => hNoSuper ((containsString_iff _ _).mp hc)
    rw [if_neg hS, if_pos hGone]
    rfl
  · rw [if_neg hAd]
    rfl

/-- Closed instance of revocation_immediate: removing U0001's editor
assignment — the only row deriving cms.pages.create — makes the next call
deny, while the original store allowed it. -/
theorem revocation_immediate_witness :
    isAllowed (createPermissionProcedureRun
        (Store.toDB (storeEditorGrant.removeUserRole "U0001" "role_editor"))
        (some alice) "cms.pages.create" (fun _ _ => (0 : Nat))).result
      = false :=
  revocation_immediate storeEditorGrant alice "role_editor"
    "cms.pages.create" (fun _ _ => (0 : Nat)) (by decide) (by decide)
    (by decide)

/-- Characterization of a createPermissionProcedure run over an arbitrary,
possibly failing store interface with a present session. -/
theorem permissionRunDB_cases {ε α : Type} (db : DB ε) (s : Session)
    (requiredPermission : String) (action : Session → List String → α) :
    createPermissionProcedureRun db (some s) requiredPermission action =
      match db.userRoleNames s.user.id with
      | .error e => ⟨.error (.internal e), 1, 0⟩
      | .ok names =>
        if names.any (fun n => ADMIN_ROLES.contains n) = true then
          (if names.contains "super_admin" = true then
            ⟨.ok (action s names), 1, 0⟩
          else
            match db.permissionChain s.user.id requiredPermission with
            | .error e => ⟨.error (.internal e), 1, 1⟩
            | .ok rows =>
              if rows = [] then
                ⟨.error (.forbidden (permRequiredMsg requiredPermission)),
                  1, 1⟩
              else ⟨.ok (action s names), 1, 1⟩)
        else ⟨.error (.forbidden "Admin access required"), 1, 0⟩ := by
  cases hq : db.userRoleNames s.user.id with
  | error e =>
    simp [createPermissionProcedureRun, protectedUse, adminUse, hq]
  | ok names =>
    by_cases hA : names.any (fun n => ADMIN_ROLES.contains n) = true
    · have hM : ∃ x ∈ names, x ∈ ADMIN_ROLES := by
        simpa using hA
      have hF : ¬ ∀ x ∈ names, x ∉ ADMIN_ROLES := by
        push_neg
        exact hM
      by_cases hS : names.contains "super_admin" = true
      · have hSm : "super_admin" ∈ names := by
          simpa using hS
        simp [createPermissionProcedureRun, protectedUse, adminUse,
          permissionUse, hq, hA, hS, hM, hF, hSm]
      · have hSm : "super_admin" ∉ names := by
          simpa using hS
        cases hp : db.permissionChain s.user.id requiredPermission with
        | error e =>
          simp [createPermissionProcedureRun, protectedUse, adminUse,
            permissionUse, hq, hA, eq_false_of_ne_true hS, hM, hF, hSm, hp]
        | ok rows =>
          by_cases hR : rows = []
          · simp [createPermissionProcedureRun, protectedUse, adminUse,
              permissionUse, hq, hA, eq_false_of_ne_true hS, hM, hF, hSm,
              hp, hR]
          · have hlen : rows.length ≠ 0 :=
              fun hz => hR (List.length_eq_zero.mp hz)
            simp [createPermissionProcedureRun, protectedUse, adminUse,
              permissionUse, hq, hA, eq_false_of_ne_true hS, hM, hF, hSm,
              hp, hR, hlen]
    · have hM : ¬ ∃ x ∈ names, x ∈ ADMIN_ROLES := by
        simpa using hA
      have hF : ∀ x ∈ names, x ∉ ADMIN_ROLES := by
        have hM2 := hM
        push_neg at hM2
        exact hM2
      simp [createPermissionProcedureRun, protectedUse, adminUse,
        permissionUse, hq, eq_false_of_ne_true hA, hM, hF]

/-- C9: every failure raised at the guard boundary is exactly one of
UNAUTHORIZED, FORBIDDEN "Admin access required", FORBIDDEN naming the
missing permission, or an Internal store failure; a failing store query
surfaces as Internal carrying the store's own error and is never
reinterpreted as Forbidden. -/
theorem guard_error_taxonomy {ε α : Type} (db : DB ε) (sess : Option Session)
    (requiredPermission : String) (action : Session → List String → α) :
    ((∃ a, (createPermissionProcedureRun db sess requiredPermission
          action).result = .ok a) ∨
      (createPermissionProcedureRun db sess requiredPermission action).result
        = .error .unauthorized ∨
      (createPermissionProcedureRun db sess requiredPermission action).result
        = .error (.forbidden "Admin access required") ∨
      (createPermissionProcedureRun db sess requiredPermission action).result
        = .error (.forbidden (permRequiredMsg requiredPermission)) ∨
      (∃ e, (createPermissionProcedureRun db sess requiredPermission
          action).result = .error (.internal e))) ∧
    (∀ (s : Session) (e : ε), sess = some s →
      db.userRoleNames s.user.id = .error e →
      (createPermissionProcedureRun db sess requiredPermission action).result
        = .error (.internal e)) ∧
    (∀ (s : Session) (e : ε) (names : List String), sess = some s →
      db.userRoleNames s.user.id = .ok names →
      names.any (fun n => ADMIN_ROLES.contains n) = true →
      names.contains "super_admin" = false →
      db.permissionChain s.user.id requiredPermission = .error e →
      (createPermissionProcedureRun db sess requiredPermission action).result
        = .error (.internal e)) := by
  cases sess with
  | none =>
    refine ⟨Or.inr (Or.inl rfl), ?_, ?_⟩
    · intro s e hs
      cases hs
    · intro s e names hs
      cases hs
  | some s =>
    refine ⟨?_, ?_, ?_⟩
    · rw [permissionRunDB_cases]
      cases hq : db.userRoleNames s.user.id with
      | error e =>
        exact Or.inr (Or.inr (Or.inr (Or.inr ⟨e, rfl⟩)))
      | ok names =>
        simp only []
        by_cases hA : names.any (fun n => ADMIN_ROLES.contains n) = true
        · rw [if_pos hA]
          by_cases hS : names.contains "super_admin" = true
          · rw [if_pos hS]
            exact Or.inl ⟨action s names, rfl⟩
          · rw [if_neg hS]
            cases hp : db.permissionChain s.user.id requiredPermission with
            | error e =>
              exact Or.inr (Or.inr (Or.inr (Or.inr ⟨e, rfl⟩)))
            | ok rows =>
              simp only []
              by_cases hR : rows = []
              · rw [if_pos hR]
                exact Or.inr (Or.inr (Or.inr (Or.inl rfl)))
              · rw [if_neg hR]
                exact Or.inl ⟨action s names, rfl⟩
        · rw [if_neg hA]
          exact Or.inr (Or.inr (Or.inl rfl))
    · intro s' e hs hq
      cases hs
      rw [permissionRunDB_cases]
      simp only [hq]
    · intro s' e names hs hq hA hS hp
      cases hs
      rw [permissionRunDB_cases]
      simp only [hq, hA, hS, hp]
      simp

/-- Closed instance of guard_error_taxonomy: a store whose role query fails
surfaces Internal carrying the store's error, not a Forbidden error. -/
theorem guard_error_taxonomy_witness :
    (createPermissionProcedureRun failingDB (some alice) "cms.pages.create"
        (fun _ _ => (0 : Nat))).result = .error (.internal ()) :=
  (guard_error_taxonomy failingDB (some alice) "cms.pages.create"
    (fun _ _ => (0 : Nat))).2.1 alice () rfl rfl

/-- Closed instance of permissionProcedure_allows_iff_admin_and_grant:
U0001 as editor with a cms.pages.create grant is allowed. -/
theorem permissionProcedure_allows_iff_admin_and_grant_witness :
    isAllowed (createPermissionProcedureRun (Store.toDB storeEditorGrant)
        (some alice) "cms.pages.create" (fun _ _ => (0 : Nat))).result
      = true :=
  (permissionProcedure_allows_iff_admin_and_grant storeEditorGrant alice
    "cms.pages.create" (fun _ _ => (0 : Nat))).mpr (by decide)

/-- Closed instance of unauthenticated_short_circuit at a concrete store. -/
theorem unauthenticated_short_circuit_witness :
    createPermissionProcedureRun (Store.toDB storeSuper) none
        "cms.pages.create" (fun _ _ => (0 : Nat)) =
      ⟨.error .unauthorized, 0, 0⟩ :=
  (unauthenticated_short_circuit (Store.toDB storeSuper) "cms.pages.create"
    (fun _ _ => (0 : Nat)) (fun _ => (0 : Nat))).1

/-- Closed instance of listRoles_authenticated_only at a concrete store. -/
theorem listRoles_authenticated_only_witness :
    (listRolesRun storeSuper (some alice)).result =
      .ok [⟨"role_super", "super_admin", none⟩] :=
  (listRoles_authenticated_only storeSuper alice).1

end Mahaus
